import Mathlib

/-!
Verification of the foodtruck-api order/user/product core.

Shallow embedding of `projeto_aplicado` (FastAPI + SQLModel food-truck
backend).  Python floats that carry money values are modelled as `Rat`
(the claims under scrutiny are about which value is assigned where, not
about floating-point rounding); timestamps are modelled as an abstract
monotone clock `Nat`; database tables are association lists keyed by the
entity id; the Redis cache is an association list of cached entries.
Exceptions (`fastapi.HTTPException`, Python `AttributeError`) are
modelled with `Except`.
-/

deriving instance DecidableEq for Except

namespace FoodTruck

/-- Status codes of `http.HTTPStatus` used by the services. -/
def BAD_REQUEST : Nat := 400
def UNAUTHORIZED : Nat := 401
def FORBIDDEN : Nat := 403
def NOT_FOUND : Nat := 404
def CONFLICT : Nat := 409
def UNPROCESSABLE_ENTITY : Nat := 422

/-- Model of `fastapi.HTTPException(status_code, detail)`. -/
structure HTTPException where
  status_code : Nat
  detail : String
deriving DecidableEq, Repr

/-- A Python exception escaping a service call: either a raised
`HTTPException` or an `AttributeError` (attribute lookup failure). -/
inductive PyExc where
  | http (e : HTTPException)
  | attributeErr (msg : String)
deriving DecidableEq, Repr

/-- `UserRole` from `resources/user/model.py`: exactly the three members
KITCHEN, ATTENDANT, ADMIN. -/
inductive UserRole where
  | kitchen
  | attendant
  | admin
deriving DecidableEq, Repr

/-- Python attribute lookup `getattr(UserRole, name)` on the enum class:
succeeds only for the three declared members. -/
def UserRole.attrLookup (name : String) : Option UserRole :=
  match name with
  | "KITCHEN" => some .kitchen
  | "ATTENDANT" => some .attendant
  | "ADMIN" => some .admin
  | _ => none

/-- `OrderStatus` from `resources/order/enums.py`. -/
inductive OrderStatus where
  | PENDING
  | PROCESSING
  | COMPLETED
  | CANCELLED
deriving DecidableEq, Repr

/-- `ProductCategory` from `resources/product/enums.py`. -/
inductive ProductCategory where
  | FOOD
  | DRINK
  | DESSERT
  | SNACK
deriving DecidableEq, Repr

/-- `Product` table model (`resources/product/model.py`), with the
shared `BaseModel` columns id / created_at / updated_at inlined. -/
structure Product where
  id : String
  created_at : Nat
  updated_at : Nat
  name : String
  description : Option String
  price : Rat
  category : ProductCategory
deriving DecidableEq, Repr

/-- `OrderItem` table model (`resources/order/model.py`). -/
structure OrderItem where
  id : String
  created_at : Nat
  updated_at : Nat
  quantity : Int
  price : Rat
  order_id : String
  product_id : String
deriving DecidableEq, Repr

/-- `OrderItem.calculate_total`: `self.quantity * self.price`. -/
def OrderItem.calculate_total (it : OrderItem) : Rat :=
  (it.quantity : Rat) * it.price

/-- `Order` table model (`resources/order/model.py`); its `products`
relationship is inlined as the list of owned items. -/
structure Order where
  id : String
  created_at : Nat
  updated_at : Nat
  status : OrderStatus
  total : Rat
  locator : String
  notes : Option String
  products : List OrderItem
  rating : Option Int
deriving DecidableEq, Repr

/-- `CreateOrderItemDTO` (`resources/order/schemas.py`): quantity,
product_id and a caller-supplied price. -/
structure CreateOrderItemDTO where
  quantity : Int
  product_id : String
  price : Rat
deriving DecidableEq, Repr

/-- `CreateOrderDTO` (`resources/order/schemas.py`). -/
structure CreateOrderDTO where
  items : List CreateOrderItemDTO
  notes : Option String
deriving DecidableEq, Repr

/-- `OrderItem.create(dto)`: `cls(**dto.model_dump())` — copies quantity,
product_id and price straight from the DTO; id is database-generated
(modelled as the empty placeholder, claims never inspect it), order_id
is filled by the ORM relationship on flush. -/
def OrderItem.create (dto : CreateOrderItemDTO) : OrderItem :=
  { id := ""
    created_at := 0
    updated_at := 0
    quantity := dto.quantity
    price := dto.price
    order_id := ""
    product_id := dto.product_id }

/-- `Order.create(dto)`: a fresh order with default status PENDING,
total 0, empty item collection; the generated id/locator and the clock
are explicit parameters standing for the ULID/locator generators. -/
def Order.create (dto : CreateOrderDTO) (newId locator : String) (now : Nat) : Order :=
  { id := newId
    created_at := now
    updated_at := now
    status := .PENDING
    total := 0
    locator := locator
    notes := dto.notes
    products := []
    rating := none }

/-- `ProductRepository.get_by_id` / `session.get(Product, id)`. -/
def ProductRepository.get_by_id (store : List Product) (pid : String) : Option Product :=
  store.find? (fun p => p.id = pid)

/-- `OrderRepository.get_by_id` / `session.get(Order, id)`. -/
def OrderRepository.get_by_id (store : List Order) (oid : String) : Option Order :=
  store.find? (fun o => o.id = oid)

/-- `BaseRepository.delete`: removes the row with the entity's primary
key from the table. -/
def OrderRepository.delete (store : List Order) (o : Order) : List Order :=
  store.filter (fun x => x.id ≠ o.id)

/-- Redis-backed `OrderCache`: per-id entries (`order:{id}` keys) and
per-page list entries (`orders:{offset}:{limit}` keys). -/
structure OrderCache where
  byId : List (String × Order)
  pages : List ((Nat × Nat) × List Order)
deriving DecidableEq, Repr

/-- `OrderCache.get_order_by_id`: read the `order:{id}` key. -/
def OrderCache.get_order_by_id (c : OrderCache) (oid : String) : Option Order :=
  (c.byId.find? (fun e => e.1 = oid)).map (fun e => e.2)

/-- `OrderCache.invalidate_order`: delete the `order:{id}` key. -/
def OrderCache.invalidate_order (c : OrderCache) (oid : String) : OrderCache :=
  { c with byId := c.byId.filter (fun e => e.1 ≠ oid) }

/-- `OrderCache.invalidate_list`: delete every `orders:*` page key. -/
def OrderCache.invalidate_list (c : OrderCache) : OrderCache :=
  { c with pages := [] }

/-- The item-resolution loop of `OrderService.create_order`: for each
DTO item, look the product up by id; on the first unresolved id raise
422 "Product not found", otherwise build the `OrderItem`s in order. -/
def resolveOrderItems (prodRepo : List Product) :
    List CreateOrderItemDTO → Except HTTPException (List OrderItem)
  | [] => .ok []
  | it :: rest =>
    match ProductRepository.get_by_id prodRepo it.product_id with
    | none => .error ⟨UNPROCESSABLE_ENTITY, "Product not found"⟩
    | some _ =>
      match resolveOrderItems prodRepo rest with
      | .error e => .error e
      | .ok items => .ok (OrderItem.create it :: items)

/-- `OrderService.create_order(dto, current_user_role)`
(`resources/order/service.py`): role guard, build the order, resolve and
append one `OrderItem` per DTO item, set `total` to the sum of the items'
`calculate_total()`, invalidate the caches and persist.  Returns the
outcome together with the resulting order table and cache. -/
def OrderService.create_order (prodRepo : List Product) (store : List Order)
    (cache : OrderCache) (dto : CreateOrderDTO) (role : UserRole)
    (newId locator : String) (now : Nat) :
    Except HTTPException Order × List Order × OrderCache :=
  if ¬(role = UserRole.admin ∨ role = UserRole.attendant) then
    (.error ⟨FORBIDDEN, "You are not allowed to create orders"⟩, store, cache)
  else
    match resolveOrderItems prodRepo dto.items with
    | .error e => (.error e, store, cache)
    | .ok items =>
      let withItems : Order :=
        { Order.create dto newId locator now with products := items }
      let new_order : Order :=
        { withItems with
            total := (withItems.products.map OrderItem.calculate_total).sum }
      let cache' := (cache.invalidate_order new_order.id).invalidate_list
      (.ok new_order, store ++ [new_order], cache')

/-- `OrderService.get_order_by_id`: hit the per-id cache first; on a
miss read the repository; if absent there, delete the stale cache key
and raise 404 "Order not found". -/
def OrderService.get_order_by_id (store : List Order) (cache : OrderCache)
    (oid : String) : Except HTTPException Order × OrderCache :=
  match cache.get_order_by_id oid with
  | some o => (.ok o, cache)
  | none =>
    match OrderRepository.get_by_id store oid with
    | none => (.error ⟨NOT_FOUND, "Order not found"⟩, cache.invalidate_order oid)
    | some o => (.ok o, cache)

/-- `OrderService.delete_order(order, current_user_role)`: role guard
(403), pending-status guard (400), then repository delete followed by
cache invalidation of the id key and of every list page. -/
def OrderService.delete_order (store : List Order) (cache : OrderCache)
    (o : Order) (role : UserRole) :
    Except HTTPException Unit × List Order × OrderCache :=
  if ¬(role = UserRole.admin ∨ role = UserRole.attendant) then
    (.error ⟨FORBIDDEN, "You are not allowed to delete orders"⟩, store, cache)
  else if o.status ≠ OrderStatus.PENDING then
    (.error ⟨BAD_REQUEST, "Order is not pending"⟩, store, cache)
  else
    (.ok (), OrderRepository.delete store o,
      (cache.invalidate_order o.id).invalidate_list)

/-- Pagination envelope (`resources/base/schemas.py` /
`resources/shared/schemas.py`). -/
structure Pagination where
  offset : Nat
  limit : Nat
  total_count : Nat
  total_pages : Nat
  page : Nat
deriving DecidableEq, Repr

/-- `OrderService.get_pagination(offset, limit)`: `total_count` comes
from `repository.get_total_count()` (the `repoCount` parameter),
`total_pages = (total_count + limit - 1) // limit if limit else 1`,
`page = offset // limit + 1 if limit else 1`. -/
def OrderService.get_pagination (repoCount offset limit : Nat) : Pagination :=
  { offset := offset
    limit := limit
    total_count := repoCount
    total_pages := if limit ≠ 0 then (repoCount + limit - 1) / limit else 1
    page := if limit ≠ 0 then offset / limit + 1 else 1 }

/-- `UserService.get_pagination(offset, limit)`: same shape, with
`total_pages = total // limit + (1 if total % limit else 0)`. -/
def UserService.get_pagination (repoCount offset limit : Nat) : Pagination :=
  { offset := offset
    limit := limit
    total_count := repoCount
    total_pages :=
      if limit ≠ 0 then repoCount / limit + (if repoCount % limit ≠ 0 then 1 else 0)
      else 1
    page := if limit ≠ 0 then offset / limit + 1 else 1 }

/-- `ProductService.get_pagination(offset, limit)`: never consults the
repository; its `total_count`, `total_pages` and `page` arguments keep
their defaults 0, 0 and 1 on every call site in the service. -/
def ProductService.get_pagination (offset limit : Nat) : Pagination :=
  { offset := offset
    limit := limit
    total_count := 0
    total_pages := 0
    page := 1 }

/-- Ceiling division as the spec words it: `total_pages =
ceil(total_count / limit)`. -/
def specCeilDiv (a b : Nat) : Nat := (a + b - 1) / b

/-- Modelled from the spec sentence for the pagination block: the
pagination metadata a list operation must return, for a repository
currently holding `repoCount` rows. -/
def paginationSpecOK (repoCount offset limit : Nat) (p : Pagination) : Prop :=
  p.total_count = repoCount ∧
  p.total_pages = specCeilDiv repoCount limit ∧
  p.page = offset / limit + 1

instance (repoCount offset limit : Nat) (p : Pagination) :
    Decidable (paginationSpecOK repoCount offset limit p) := by
  unfold paginationSpecOK; infer_instance

/-- `User` table model (`resources/user/model.py`); `password` stores
the hash produced by the `CreateUserDTO` validator. -/
structure User where
  id : String
  created_at : Nat
  updated_at : Nat
  username : String
  email : String
  password : String
  full_name : Option String
  role : UserRole
deriving DecidableEq, Repr

/-- `UserRepository.get_by_username`: first row whose username matches. -/
def UserRepository.get_by_username (store : List User) (username : String) :
    Option User :=
  store.find? (fun u => u.username = username)

/-- `verify_password(plain, hashed)` (`auth/password.py`): empty inputs
verify as `false`; otherwise the Argon2 context decides (the context's
`pwd_context.verify` is the abstract oracle `argon2`). -/
def verify_password (argon2 : String → String → Bool)
    (plain_password hashed_password : String) : Bool :=
  if plain_password = "" then false
  else if hashed_password = "" then false
  else argon2 plain_password hashed_password

/-- `validate_user_credentials(user_repository, username, password)`
(`auth/token.py`): look the user up by username; raise 401 with the one
fixed detail if absent, and the same 401 detail if the password does not
verify against the stored hash. -/
def validate_user_credentials (argon2 : String → String → Bool)
    (store : List User) (username password : String) :
    Except HTTPException User :=
  match UserRepository.get_by_username store username with
  | none => .error ⟨UNAUTHORIZED, "Incorrect username or password"⟩
  | some user =>
    if ¬ verify_password argon2 password user.password then
      .error ⟨UNAUTHORIZED, "Incorrect username or password"⟩
    else .ok user

/-- One element of the list returned by
`UserService.create_default_users` (username, email, role and the
one-time plaintext password). -/
structure CreatedUserRecord where
  username : String
  email : String
  role : UserRole
  password : String
deriving DecidableEq, Repr

/-- `UserService.create_user(dto)`: hash the password (DTO validator),
build the `User` row and persist it. -/
def UserService.create_user (hash : String → String) (store : List User)
    (username full_name email password : String) (role : UserRole) :
    User × List User :=
  let u : User :=
    { id := ""
      created_at := 0
      updated_at := 0
      username := username
      email := email
      password := hash password
      full_name := some full_name
      role := role }
  (u, store ++ [u])

/-- `UserService.create_default_users` (`resources/user/service.py`):
check which of the fixed `admin` / `website` accounts exist, create the
missing ones (the website account's role is the attribute lookup
`UserRole.WEBSITE` on the enum class), raise 409 when both already
existed, and return the created records.  The outcome is paired with the
resulting user table, since the admin insert happens before the website
branch runs. -/
def UserService.create_default_users (hash : String → String)
    (store : List User) :
    Except PyExc (List CreatedUserRecord) × List User :=
  let admin_exists := (UserRepository.get_by_username store "admin").isSome
  let website_exists := (UserRepository.get_by_username store "website").isSome
  let step1 : List CreatedUserRecord × List User :=
    if ¬admin_exists then
      let (created, store') := UserService.create_user hash store
        "admin" "Administrator" "admin@example.com" "admin123456" UserRole.admin
      ([⟨created.username, created.email, created.role, "admin123456"⟩], store')
    else ([], store)
  let created1 := step1.1
  let store1 := step1.2
  if ¬website_exists then
    match UserRole.attrLookup "WEBSITE" with
    | none =>
      (.error (.attributeErr "type object UserRole has no attribute WEBSITE"),
        store1)
    | some websiteRole =>
      let (created, store2) := UserService.create_user hash store1
        "website" "Website Integration" "website@example.com" "website123456"
        websiteRole
      let created2 :=
        created1 ++ [⟨created.username, created.email, created.role, "website123456"⟩]
      if admin_exists ∧ website_exists then
        (.error (.http ⟨CONFLICT, "Setup has already been completed"⟩), store2)
      else (.ok created2, store2)
  else
    if admin_exists ∧ website_exists then
      (.error (.http ⟨CONFLICT, "Setup has already been completed"⟩), store1)
    else (.ok created1, store1)

/-- Dump of `UpdateOrderDTO.model_dump(exclude_unset=True)`: each field
is absent (`none`) or present; a present `rating` / `notes` may carry an
explicit Python `None` (inner `none`); `status` is a non-nullable
column. -/
structure OrderUpdateDump where
  status : Option OrderStatus
  rating : Option (Option Int)
  notes : Option (Option String)
deriving DecidableEq, Repr

/-- `BaseRepository.update` (`resources/base/repository.py`) applied to
an `Order`: for each key in the dump, `setattr` the value unless the
value is `None`; timestamps are never touched by this variant. -/
def BaseRepository.update_order (o : Order) (d : OrderUpdateDump) : Order :=
  let o1 := match d.status with
    | some v => { o with status := v }
    | none => o
  let o2 := match d.rating with
    | some (some v) => { o1 with rating := some v }
    | _ => o1
  match d.notes with
  | some (some v) => { o2 with notes := some v }
  | _ => o2

/-- Dump of `UpdateUserDTO.model_dump(exclude_unset=True)`: `full_name`
is the nullable column (inner Python `None` possible); email, password
and role are non-nullable. -/
structure UserUpdateDump where
  full_name : Option (Option String)
  email : Option String
  password : Option String
  role : Option UserRole
deriving DecidableEq, Repr

/-- `BaseRepository.update` (`resources/base/repository.py`) applied to
a `User`: skip `None` values, never touch the timestamps. -/
def BaseRepository.update_user (u : User) (d : UserUpdateDump) : User :=
  let u1 := match d.full_name with
    | some (some v) => { u with full_name := some v }
    | _ => u
  let u2 := match d.email with
    | some v => { u1 with email := v }
    | none => u1
  let u3 := match d.password with
    | some v => { u2 with password := v }
    | none => u2
  match d.role with
  | some v => { u3 with role := v }
  | none => u3

/-- Dump of `UpdateProductDTO.model_dump(exclude_unset=True)`:
`description` is the nullable column (inner Python `None` possible);
name, price and category are non-nullable columns. -/
structure ProductUpdateDump where
  name : Option String
  price : Option Rat
  description : Option (Option String)
  category : Option ProductCategory
deriving DecidableEq, Repr

/-- `BaseRepository.update` (`resources/shared/repository.py`) applied
to a `Product`: first `setattr(entity, 'updated_at', now)`, then apply
the dump skipping `None` values; `created_at` is never touched. -/
def SharedRepository.update_product (now : Nat) (p : Product)
    (d : ProductUpdateDump) : Product :=
  let p0 := { p with updated_at := now }
  let p1 := match d.name with
    | some v => { p0 with name := v }
    | none => p0
  let p2 := match d.price with
    | some v => { p1 with price := v }
    | none => p1
  let p3 := match d.description with
    | some (some v) => { p2 with description := some v }
    | _ => p2
  match d.category with
  | some v => { p3 with category := v }
  | none => p3

/-- `ProductRepository.update(product_id, product_dto)`
(`resources/product/repository.py`): fetch by id; if found, apply every
present dump entry with a bare `setattr` — no `None` check, so a present
`description: None` overwrites the stored value — and persist; the
timestamps are not refreshed.  Returns the updated row (or `none`) and
the table. -/
def ProductRepository.update (store : List Product) (product_id : String)
    (d : ProductUpdateDump) : Option Product × List Product :=
  match ProductRepository.get_by_id store product_id with
  | none => (none, store)
  | some p =>
    let p1 := match d.name with
      | some v => { p with name := v }
      | none => p
    let p2 := match d.price with
      | some v => { p1 with price := v }
      | none => p1
    let p3 := match d.description with
      | some v => { p2 with description := v }
      | none => p2
    let p4 := match d.category with
      | some v => { p3 with category := v }
      | none => p3
    (some p4, store.map (fun x => if x.id = product_id then p4 else x))

/-- `PublicProductData`: the record built by
`OrderRepository.get_all_public` (its class is referenced from
`resources/order/schemas.py` but constructed with exactly these three
keyword arguments in `resources/order/repository.py`). -/
structure PublicProductData where
  product_id : String
  quantity : Int
  rating : Rat
deriving DecidableEq, Repr

/-- The FROM/JOIN part of the `get_all_public` query: every `OrderItem`
row paired with the `Order` row matching its foreign key. -/
def joinedRows (orders : List Order) (items : List OrderItem) :
    List (OrderItem × Order) :=
  items.filterMap (fun it =>
    (orders.find? (fun o => o.id = it.order_id)).map (fun o => (it, o)))

/-- Group keys of the `GROUP BY OrderItem.product_id` clause. -/
def groupKeys (rows : List (OrderItem × Order)) : List String :=
  (rows.map (fun r => r.1.product_id)).dedup

/-- `OrderRepository.get_all_public` (`resources/order/repository.py`).
The query's `.where(Order.rating is not None)` compares the column
object against `None` in the host language, which yields the constant
`True`, so the WHERE clause filters nothing (modelled by the literal
`filter (fun _ => true)`).  Per product-id group the query computes
`sum(OrderItem.quantity)` and `avg(Order.rating)`; SQL `AVG` ignores
`NULL` ratings and is itself `NULL` when the group has none, and the
Python post-processing drops those `NULL`-average rows. -/
def OrderRepository.get_all_public (orders : List Order)
    (items : List OrderItem) : List PublicProductData :=
  let rows := (joinedRows orders items).filter (fun _ => true)
  (groupKeys rows).filterMap (fun pid =>
    let grp := rows.filter (fun r => r.1.product_id = pid)
    let ratings : List Int := grp.filterMap (fun r => r.2.rating)
    match ratings with
    | [] => none
    | _ :: _ =>
      some { product_id := pid
             quantity := (grp.map (fun r => r.1.quantity)).sum
             rating := (ratings.map (fun (n : Int) => (n : Rat))).sum
               / ((ratings.length : Nat) : Rat) })

/-- Modelled from the spec sentence for `get_all_public`: one record per
item of each order that has a rating set, carrying that item's product
id, that item's quantity and that order's rating; orders without a
rating contribute no records. -/
def publicFeedSpec (orders : List Order) (items : List OrderItem) :
    List PublicProductData :=
  items.filterMap (fun it =>
    match orders.find? (fun o => o.id = it.order_id) with
    | none => none
    | some o =>
      o.rating.map (fun r =>
        { product_id := it.product_id
          quantity := it.quantity
          rating := (r : Rat) }))

/-! Helper lemmas about the item-resolution loop. -/

/-- Whatever list the resolution loop returns is the itemwise image of
`OrderItem.create` over the DTO items. -/
lemma resolveOrderItems_ok_eq (prodRepo : List Product) :
    ∀ (items : List CreateOrderItemDTO) (l : List OrderItem),
      resolveOrderItems prodRepo items = .ok l →
      l = items.map OrderItem.create := by
  intro items
  induction items with
  | nil =>
    intro l h
    simpa [resolveOrderItems] using h.symm
  | cons it rest ih =>
    intro l h
    unfold resolveOrderItems at h
    cases hfind : ProductRepository.get_by_id prodRepo it.product_id with
    | none => rw [hfind] at h; simp at h
    | some p =>
      rw [hfind] at h
      cases hrec : resolveOrderItems prodRepo rest with
      | error e => rw [hrec] at h; simp at h
      | ok l' =>
        rw [hrec] at h
        simp only [Except.ok.injEq] at h
        subst h
        simp [ih l' hrec]

/-- When every DTO item's product id resolves, the loop succeeds. -/
lemma resolveOrderItems_total (prodRepo : List Product) :
    ∀ (items : List CreateOrderItemDTO),
      (∀ it ∈ items, (ProductRepository.get_by_id prodRepo it.product_id).isSome) →
      resolveOrderItems prodRepo items = .ok (items.map OrderItem.create) := by
  intro items
  induction items with
  | nil => intro _; simp [resolveOrderItems]
  | cons it rest ih =>
    intro hall
    have hhead := hall it (by simp)
    cases hfind : ProductRepository.get_by_id prodRepo it.product_id with
    | none => rw [hfind] at hhead; simp at hhead
    | some p =>
      have htail := ih (fun x hx => hall x (by simp [hx]))
      unfold resolveOrderItems
      rw [hfind, htail]
      simp

/-- C1.  For every successfully created order, the order's `total` field
equals the sum over all of its order items of `quantity * price`,
immediately after `create_order` returns. -/
theorem order_total_is_item_sum
    (prodRepo : List Product) (store : List Order) (cache : OrderCache)
    (dto : CreateOrderDTO) (role : UserRole) (newId locator : String) (now : Nat)
    (o : Order) (store' : List Order) (cache' : OrderCache)
    (h : OrderService.create_order prodRepo store cache dto role newId locator now
         = (.ok o, store', cache')) :
    o.total = (o.products.map (fun it => (it.quantity : Rat) * it.price)).sum := by
  unfold OrderService.create_order at h
  split at h
  · simp at h
  · cases hres : resolveOrderItems prodRepo dto.items with
    | error e => rw [hres] at h; simp at h
    | ok items =>
      rw [hres] at h
      simp only [Prod.mk.injEq, Except.ok.injEq] at h
      obtain ⟨h1, -, -⟩ := h
      subst h1
      rfl

/-- Product table used by the C1 witness. -/
def c1Products : List Product :=
  [{ id := "p1", created_at := 0, updated_at := 0, name := "X-Burger",
     description := none, price := (259 : Rat)/10, category := .FOOD },
   { id := "p2", created_at := 0, updated_at := 0, name := "Soda",
     description := none, price := (159 : Rat)/10, category := .DRINK }]

/-- Create request used by the C1 witness: 2 × 25.90 and 3 × 15.90. -/
def c1Dto : CreateOrderDTO :=
  ⟨[⟨2, "p1", (259 : Rat)/10⟩, ⟨3, "p2", (159 : Rat)/10⟩], none⟩

/-- Items of the order the C1 witness expects back. -/
def c1Items : List OrderItem :=
  [{ id := "", created_at := 0, updated_at := 0, quantity := 2,
     price := (259 : Rat)/10, order_id := "", product_id := "p1" },
   { id := "", created_at := 0, updated_at := 0, quantity := 3,
     price := (159 : Rat)/10, order_id := "", product_id := "p2" }]

/-- The order the C1 witness expects back (total 99.50). -/
def c1Order : Order :=
  { id := "o1", created_at := 7, updated_at := 7, status := .PENDING,
    total := (c1Items.map OrderItem.calculate_total).sum,
    locator := "A123", notes := none, products := c1Items, rating := none }

/-- Witness for C1 at a concrete input: one order with items 2 × 25.90
and 3 × 15.90, total 99.50. -/
theorem order_total_is_item_sum_witness :
    OrderService.create_order c1Products [] ⟨[], []⟩ c1Dto
        UserRole.attendant "o1" "A123" 7
      = (.ok c1Order, [c1Order], ⟨[], []⟩) ∧
    c1Order.total
      = (c1Order.products.map (fun it => (it.quantity : Rat) * it.price)).sum ∧
    c1Order.total = (199 : Rat)/2 :=
  ⟨by rfl,
   order_total_is_item_sum c1Products [] ⟨[], []⟩ c1Dto UserRole.attendant
     "o1" "A123" 7 c1Order [c1Order] ⟨[], []⟩ (by rfl),
   by norm_num [c1Order, c1Items, OrderItem.calculate_total]⟩

/-- Product table for the C2 counterexample: the stored price of `p1`
is 10. -/
def c2Products : List Product :=
  [{ id := "p1", created_at := 0, updated_at := 0, name := "X-Burger",
     description := none, price := 10, category := .FOOD }]

/-- Create request for the C2 counterexample: the caller claims price
99 for `p1`. -/
def c2Dto : CreateOrderDTO := ⟨[⟨1, "p1", 99⟩], none⟩

/-- Counterexample to C2: `create_order` stores the caller-supplied
price 99 in the order item even though the `Product` repository holds
price 10 for the referenced product — the product's current price is
not copied into the item. -/
theorem order_item_price_not_copied_cex :
    ((OrderService.create_order c2Products [] ⟨[], []⟩ c2Dto
        UserRole.attendant "o2" "B123" 3).1.map
      (fun o => o.products.map (fun it => it.price)))
      = .ok [(99 : Rat)] ∧
    (ProductRepository.get_by_id c2Products "p1").map (fun p => p.price)
      = some (10 : Rat) ∧
    (99 : Rat) ≠ 10 :=
  ⟨by rfl, by rfl, by norm_num⟩

/-- C2 amended.  For every order created via `create_order`, each
`OrderItem`'s price, product id and quantity are copied from the
corresponding item of the caller's `CreateOrderDTO`; the product
repository is consulted only to check that the product exists. -/
theorem order_item_fields_from_dto
    (prodRepo : List Product) (store : List Order) (cache : OrderCache)
    (dto : CreateOrderDTO) (role : UserRole) (newId locator : String) (now : Nat)
    (o : Order) (store' : List Order) (cache' : OrderCache)
    (h : OrderService.create_order prodRepo store cache dto role newId locator now
         = (.ok o, store', cache')) :
    o.products.map (fun it => it.price) = dto.items.map (fun it => it.price) ∧
    o.products.map (fun it => it.product_id)
      = dto.items.map (fun it => it.product_id) ∧
    o.products.map (fun it => it.quantity)
      = dto.items.map (fun it => it.quantity) := by
  unfold OrderService.create_order at h
  split at h
  · simp at h
  · cases hres : resolveOrderItems prodRepo dto.items with
    | error e => rw [hres] at h; simp at h
    | ok items =>
      rw [hres] at h
      simp only [Prod.mk.injEq, Except.ok.injEq] at h
      obtain ⟨h1, -, -⟩ := h
      subst h1
      have hitems := resolveOrderItems_ok_eq prodRepo dto.items items hres
      subst hitems
      refine ⟨?_, ?_, ?_⟩ <;> simp [OrderItem.create]

/-- The order the amended-C2 witness expects back. -/
def c2Order : Order :=
  { id := "o2", created_at := 3, updated_at := 3, status := .PENDING,
    total := ((c2Dto.items.map OrderItem.create).map
      OrderItem.calculate_total).sum,
    locator := "B123", notes := none,
    products := c2Dto.items.map OrderItem.create, rating := none }

/-- Witness for the amended C2 at the concrete input of the
counterexample. -/
theorem order_item_fields_from_dto_witness :
    (OrderService.create_order c2Products [] ⟨[], []⟩ c2Dto
        UserRole.attendant "o2" "B123" 3).1 = .ok c2Order ∧
    c2Order.products.map (fun it => it.price)
      = c2Dto.items.map (fun it => it.price) :=
  ⟨by rfl,
   (order_item_fields_from_dto c2Products [] ⟨[], []⟩ c2Dto
     UserRole.attendant "o2" "B123" 3 c2Order [c2Order] ⟨[], []⟩ (by rfl)).1⟩

/-- Looking a key up after every row with that key was filtered away
finds nothing. -/
lemma find?_filter_ne_none {α : Type} (key : α → String) (k : String)
    (l : List α) :
    (l.filter (fun x => key x ≠ k)).find? (fun x => key x = k) = none := by
  rw [List.find?_eq_none]
  intro x hx
  rw [List.mem_filter] at hx
  have h2 := hx.2
  simp only [ne_eq, decide_not, Bool.not_eq_true', decide_eq_false_iff_not] at h2
  simpa using h2

/-- C3.  With an allowed role (admin or attendant): deleting a
non-pending order fails with 400 "Order is not pending" and leaves the
order table and cache untouched; deleting a pending order succeeds,
removes the row and invalidates the cache, and a subsequent
`get_order_by_id` for that id fails with 404 "Order not found". -/
theorem delete_order_pending_guard
    (store : List Order) (cache : OrderCache) (o : Order) (role : UserRole)
    (hrole : role = UserRole.admin ∨ role = UserRole.attendant) :
    (o.status ≠ OrderStatus.PENDING →
      OrderService.delete_order store cache o role
        = (.error ⟨BAD_REQUEST, "Order is not pending"⟩, store, cache)) ∧
    (o.status = OrderStatus.PENDING →
      OrderService.delete_order store cache o role
        = (.ok (), OrderRepository.delete store o,
            (cache.invalidate_order o.id).invalidate_list) ∧
      (OrderService.get_order_by_id (OrderRepository.delete store o)
          ((cache.invalidate_order o.id).invalidate_list) o.id).1
        = .error ⟨NOT_FOUND, "Order not found"⟩) := by
  have hcond : ¬¬(role = UserRole.admin ∨ role = UserRole.attendant) :=
    not_not_intro hrole
  constructor
  · intro hs
    unfold OrderService.delete_order
    rw [if_neg hcond, if_pos hs]
  · intro hs
    have hs' : ¬(o.status ≠ OrderStatus.PENDING) := by simp [hs]
    refine ⟨by unfold OrderService.delete_order; rw [if_neg hcond, if_neg hs'], ?_⟩
    have hc : ((cache.invalidate_order o.id).invalidate_list).get_order_by_id o.id
        = none := by
      simp only [OrderCache.get_order_by_id, OrderCache.invalidate_order,
        OrderCache.invalidate_list]
      rw [find?_filter_ne_none Prod.fst o.id cache.byId]
      rfl
    have hr : OrderRepository.get_by_id (OrderRepository.delete store o) o.id
        = none := by
      unfold OrderRepository.get_by_id OrderRepository.delete
      exact find?_filter_ne_none (fun x => x.id) o.id store
    unfold OrderService.get_order_by_id
    rw [hc, hr]

/-- Pending order used by the C3 witness; it is also present in the
cache, so the witness checks that the deletion really invalidates it. -/
def c3Order : Order :=
  { id := "o3", created_at := 1, updated_at := 1, status := .PENDING,
    total := 10, locator := "C123", notes := none, products := [],
    rating := none }

/-- Completed order used by the C3 witness's failure half. -/
def c3Done : Order :=
  { id := "o4", created_at := 1, updated_at := 1, status := .COMPLETED,
    total := 10, locator := "D123", notes := none, products := [],
    rating := none }

/-- Witness for C3: a cached pending order is deleted by an admin and
then unretrievable; a completed order is rejected with 400. -/
theorem delete_order_pending_guard_witness :
    (OrderService.delete_order [c3Order] ⟨[("o3", c3Order)], []⟩ c3Order
        UserRole.admin
      = (.ok (), OrderRepository.delete [c3Order] c3Order,
          (OrderCache.invalidate_order ⟨[("o3", c3Order)], []⟩ "o3").invalidate_list) ∧
     (OrderService.get_order_by_id (OrderRepository.delete [c3Order] c3Order)
         ((OrderCache.invalidate_order ⟨[("o3", c3Order)], []⟩ "o3").invalidate_list)
         "o3").1
       = .error ⟨NOT_FOUND, "Order not found"⟩) ∧
    OrderService.delete_order [c3Done] ⟨[], []⟩ c3Done UserRole.attendant
      = (.error ⟨BAD_REQUEST, "Order is not pending"⟩, [c3Done], ⟨[], []⟩) :=
  ⟨(delete_order_pending_guard [c3Order] ⟨[("o3", c3Order)], []⟩ c3Order
      UserRole.admin (Or.inl rfl)).2 rfl,
   (delete_order_pending_guard [c3Done] ⟨[], []⟩ c3Done UserRole.attendant
      (Or.inr rfl)).1 (by decide)⟩

/-- The admin row `create_default_users` inserts (with identity as the
hash oracle) before the website branch runs. -/
def c4AdminRow : User :=
  { id := "", created_at := 0, updated_at := 0, username := "admin",
    email := "admin@example.com", password := "admin123456",
    full_name := some "Administrator", role := UserRole.admin }

/-- A pre-existing website user row for the C4 conflict branch. -/
def c4WebsiteRow : User :=
  { id := "", created_at := 0, updated_at := 0, username := "website",
    email := "website@example.com", password := "website123456",
    full_name := some "Website Integration", role := UserRole.attendant }

/-- C4 (code bug).  On a store without a `website` user — e.g. a fresh
database — `create_default_users` crashes with `AttributeError`
(`UserRole` has no member WEBSITE) instead of returning the created
accounts, and it has already persisted the admin row when it crashes;
the 409 Conflict branch for an already-completed setup does work. -/
theorem create_default_users_website_crash :
    UserService.create_default_users (fun s => s) []
      = (.error (.attributeErr "type object UserRole has no attribute WEBSITE"),
         [c4AdminRow]) ∧
    UserRole.attrLookup "WEBSITE" = none ∧
    (UserService.create_default_users (fun s => s) [c4AdminRow, c4WebsiteRow]).1
      = .error (.http ⟨CONFLICT, "Setup has already been completed"⟩) := by
  refine ⟨?_, rfl, ?_⟩ <;> decide

/-- C8.  Authentication failure is indistinguishable to the caller:
whether the username does not exist or the password fails verification,
`validate_user_credentials` raises the identical 401 error with detail
"Incorrect username or password". -/
theorem auth_failure_indistinguishable
    (argon2 : String → String → Bool) (store : List User)
    (username password : String) :
    (UserRepository.get_by_username store username = none →
      validate_user_credentials argon2 store username password
        = .error ⟨UNAUTHORIZED, "Incorrect username or password"⟩) ∧
    (∀ u, UserRepository.get_by_username store username = some u →
      verify_password argon2 password u.password = false →
      validate_user_credentials argon2 store username password
        = .error ⟨UNAUTHORIZED, "Incorrect username or password"⟩) := by
  constructor
  · intro h
    unfold validate_user_credentials
    rw [h]
  · intro u hu hv
    unfold validate_user_credentials
    rw [hu]
    simp [hv]

/-- Stored user for the C8 witness. -/
def c8User : User :=
  { id := "u1", created_at := 0, updated_at := 0, username := "alice",
    email := "alice@example.com", password := "hashed", full_name := none,
    role := UserRole.admin }

/-- Witness for C8: unknown username and wrong password produce the
same 401 error for a concrete store and verifier. -/
theorem auth_failure_indistinguishable_witness :
    validate_user_credentials (fun _ _ => false) [c8User] "bob" "pw"
      = .error ⟨UNAUTHORIZED, "Incorrect username or password"⟩ ∧
    validate_user_credentials (fun _ _ => false) [c8User] "alice" "pw"
      = .error ⟨UNAUTHORIZED, "Incorrect username or password"⟩ :=
  ⟨(auth_failure_indistinguishable (fun _ _ => false) [c8User] "bob" "pw").1
     (by decide),
   (auth_failure_indistinguishable (fun _ _ => false) [c8User] "alice" "pw").2
     c8User (by decide) (by decide)⟩

/-- C9.  Role matrix for orders: role kitchen may neither create (403,
nothing persisted) nor delete (403, regardless of the order's status);
roles admin and attendant may create whenever every referenced product
id resolves. -/
theorem order_role_matrix
    (prodRepo : List Product) (store : List Order) (cache : OrderCache)
    (dto : CreateOrderDTO) (newId locator : String) (now : Nat) (o : Order) :
    OrderService.create_order prodRepo store cache dto UserRole.kitchen
        newId locator now
      = (.error ⟨FORBIDDEN, "You are not allowed to create orders"⟩, store, cache) ∧
    (∀ role, (role = UserRole.admin ∨ role = UserRole.attendant) →
      (∀ it ∈ dto.items,
        (ProductRepository.get_by_id prodRepo it.product_id).isSome) →
      ∃ newOrder store' cache',
        OrderService.create_order prodRepo store cache dto role newId locator now
          = (.ok newOrder, store', cache')) ∧
    OrderService.delete_order store cache o UserRole.kitchen
      = (.error ⟨FORBIDDEN, "You are not allowed to delete orders"⟩, store, cache) := by
  refine ⟨?_, ?_, ?_⟩
  · unfold OrderService.create_order
    rw [if_pos (by decide)]
  · intro role hrole hres
    have h := resolveOrderItems_total prodRepo dto.items hres
    unfold OrderService.create_order
    rw [if_neg (not_not_intro hrole), h]
    exact ⟨_, _, _, rfl⟩
  · unfold OrderService.delete_order
    rw [if_pos (by decide)]

/-- Product table for the C9 witness. -/
def c9Products : List Product :=
  [{ id := "p9", created_at := 0, updated_at := 0, name := "Hot-Dog",
     description := none, price := 10, category := .FOOD }]

/-- Create request for the C9 witness. -/
def c9Dto : CreateOrderDTO := ⟨[⟨1, "p9", 10⟩], none⟩

/-- Pending order for the C9 witness's delete half. -/
def c9Order : Order :=
  { id := "o9", created_at := 1, updated_at := 1, status := .PENDING,
    total := 10, locator := "F123", notes := none, products := [],
    rating := none }

/-- Witness for C9 at concrete inputs: kitchen is refused on create and
delete, admin's create comes back `ok`. -/
theorem order_role_matrix_witness :
    OrderService.create_order c9Products [] ⟨[], []⟩ c9Dto UserRole.kitchen
        "o9" "E123" 1
      = (.error ⟨FORBIDDEN, "You are not allowed to create orders"⟩, [], ⟨[], []⟩) ∧
    (OrderService.create_order c9Products [] ⟨[], []⟩ c9Dto UserRole.admin
        "o9" "E123" 1).1.isOk = true ∧
    OrderService.delete_order [c9Order] ⟨[], []⟩ c9Order UserRole.kitchen
      = (.error ⟨FORBIDDEN, "You are not allowed to delete orders"⟩,
         [c9Order], ⟨[], []⟩) := by
  have h := order_role_matrix c9Products [] ⟨[], []⟩ c9Dto "o9" "E123" 1 c9Order
  have h2 := order_role_matrix c9Products [c9Order] ⟨[], []⟩ c9Dto "o9" "E123" 1
    c9Order
  obtain ⟨newOrder, store', cache', heq⟩ :=
    h.2.1 UserRole.admin (Or.inl rfl) (by decide)
  refine ⟨h.1, ?_, h2.2.2⟩
  rw [heq]
  rfl

/-! Update-path lemmas shared by the timestamp claim. -/

lemma update_order_timestamps (o : Order) (d : OrderUpdateDump) :
    (BaseRepository.update_order o d).created_at = o.created_at ∧
    (BaseRepository.update_order o d).updated_at = o.updated_at := by
  obtain ⟨s, r, n⟩ := d
  cases s <;> rcases r with _ | (_ | _) <;> rcases n with _ | (_ | _) <;>
    simp [BaseRepository.update_order]

lemma update_user_timestamps (u : User) (d : UserUpdateDump) :
    (BaseRepository.update_user u d).created_at = u.created_at ∧
    (BaseRepository.update_user u d).updated_at = u.updated_at := by
  obtain ⟨f, e, pw, r⟩ := d
  rcases f with _ | (_ | _) <;> cases e <;> cases pw <;> cases r <;>
    simp [BaseRepository.update_user]

lemma shared_update_product_timestamps (now : Nat) (p : Product)
    (d : ProductUpdateDump) :
    (SharedRepository.update_product now p d).created_at = p.created_at ∧
    (SharedRepository.update_product now p d).updated_at = now := by
  obtain ⟨n, pr, de, c⟩ := d
  cases n <;> cases pr <;> rcases de with _ | (_ | _) <;> cases c <;>
    simp [SharedRepository.update_product]

lemma product_repo_update_timestamps (store : List Product) (pid : String)
    (d : ProductUpdateDump) (p0 : Product)
    (h : ProductRepository.get_by_id store pid = some p0) :
    (ProductRepository.update store pid d).1.map (fun x => x.created_at)
      = some p0.created_at ∧
    (ProductRepository.update store pid d).1.map (fun x => x.updated_at)
      = some p0.updated_at := by
  unfold ProductRepository.update
  rw [h]
  obtain ⟨n, pr, de, c⟩ := d
  cases n <;> cases pr <;> rcases de with _ | (_ | _) <;> cases c <;> simp

/-- C5 amended.  Every update path leaves `created_at` unchanged, but
only the shared-repository variant (`resources/shared/repository.py`)
refreshes `updated_at` — it sets it to the current clock, hence strictly
greater whenever the clock is ahead of the stored value.  The base
variant (`resources/base/repository.py`), used by the user and order
repositories, and `ProductRepository.update`, used by the product
service, leave `updated_at` unchanged. -/
theorem update_timestamp_behaviour
    (now : Nat) (o : Order) (d : OrderUpdateDump) (u : User)
    (du : UserUpdateDump) (p : Product) (dp : ProductUpdateDump)
    (pstore : List Product) (pid : String) :
    (BaseRepository.update_order o d).created_at = o.created_at ∧
    (BaseRepository.update_order o d).updated_at = o.updated_at ∧
    (BaseRepository.update_user u du).created_at = u.created_at ∧
    (BaseRepository.update_user u du).updated_at = u.updated_at ∧
    (SharedRepository.update_product now p dp).created_at = p.created_at ∧
    (SharedRepository.update_product now p dp).updated_at = now ∧
    (p.updated_at < now →
      p.updated_at < (SharedRepository.update_product now p dp).updated_at) ∧
    (∀ p0, ProductRepository.get_by_id pstore pid = some p0 →
      (ProductRepository.update pstore pid dp).1.map (fun x => x.created_at)
          = some p0.created_at ∧
      (ProductRepository.update pstore pid dp).1.map (fun x => x.updated_at)
          = some p0.updated_at) := by
  obtain ⟨ho1, ho2⟩ := update_order_timestamps o d
  obtain ⟨hu1, hu2⟩ := update_user_timestamps u du
  obtain ⟨hp1, hp2⟩ := shared_update_product_timestamps now p dp
  exact ⟨ho1, ho2, hu1, hu2, hp1, hp2,
    fun hlt => by rw [hp2]; exact hlt,
    fun p0 h0 => product_repo_update_timestamps pstore pid dp p0 h0⟩

/-- Order used by the C5 counterexample: stored `updated_at` is 5 and
the patch changes `notes`. -/
def c5Order : Order :=
  { id := "o5", created_at := 1, updated_at := 5, status := .PENDING,
    total := 10, locator := "G123", notes := some "old", products := [],
    rating := none }

/-- Patch used by the C5 counterexample: `notes` set to "new". -/
def c5Dump : OrderUpdateDump := ⟨none, none, some (some "new")⟩

/-- Counterexample to C5: an order update through the base repository
(the path used by the order and user services) changes a field yet
leaves `updated_at` exactly as it was — it is not strictly greater. -/
theorem updated_at_not_increased_cex :
    (BaseRepository.update_order c5Order c5Dump).notes = some "new" ∧
    (BaseRepository.update_order c5Order c5Dump).notes ≠ c5Order.notes ∧
    ¬ c5Order.updated_at < (BaseRepository.update_order c5Order c5Dump).updated_at ∧
    (BaseRepository.update_order c5Order c5Dump).created_at = c5Order.created_at := by
  decide

/-- Product used by the C5 witness. -/
def c5Product : Product :=
  { id := "p5", created_at := 2, updated_at := 5, name := "Pie",
    description := none, price := 8, category := .DESSERT }

/-- Witness for the amended C5 at a concrete input: the shared update
at clock 9 strictly increases `updated_at` from 5 while the base order
update leaves it at 5; `created_at` never moves. -/
theorem update_timestamp_behaviour_witness :
    c5Product.updated_at
      < (SharedRepository.update_product 9 c5Product ⟨none, none, none, none⟩).updated_at ∧
    (BaseRepository.update_order c5Order c5Dump).updated_at = c5Order.updated_at ∧
    (BaseRepository.update_order c5Order c5Dump).created_at = c5Order.created_at := by
  have h := update_timestamp_behaviour 9 c5Order c5Dump c8User
    ⟨none, none, none, none⟩ c5Product ⟨none, none, none, none⟩ [] "p5"
  exact ⟨h.2.2.2.2.2.2.1 (by decide), h.2.1, h.1⟩

/-- Product stored before the C10 counterexample's update. -/
def c10Product : Product :=
  { id := "pX", created_at := 1, updated_at := 1, name := "Cake",
    description := some "tasty", price := 5, category := .DESSERT }

/-- Patch for the C10 counterexample: `description` explicitly set to
Python `None`. -/
def c10Dump : ProductUpdateDump := ⟨none, none, some none, none⟩

/-- Counterexample to C10: `ProductRepository.update` applies a patch
entry whose value is `None` instead of skipping it, so the stored
product's `description` is cleared back to null. -/
theorem update_none_applied_cex :
    c10Product.description = some "tasty" ∧
    (ProductRepository.update [c10Product] "pX" c10Dump).1.map
        (fun x => x.description)
      = some none := by
  decide

/-- C10 amended.  The base and shared `BaseRepository.update` variants
(the user and order update paths) skip patch entries whose value is
`None`, so their nullable fields keep their previous values; but
`ProductRepository.update` (the product update path) applies every
present entry, `None` included, so a product's `description` can be
cleared back to null. -/
theorem update_none_skipping
    (o : Order) (d : OrderUpdateDump) (u : User) (du : UserUpdateDump)
    (now : Nat) (p : Product) (dp : ProductUpdateDump)
    (pstore : List Product) (pid : String) :
    (d.notes = some none → (BaseRepository.update_order o d).notes = o.notes) ∧
    (d.rating = some none → (BaseRepository.update_order o d).rating = o.rating) ∧
    (du.full_name = some none →
      (BaseRepository.update_user u du).full_name = u.full_name) ∧
    (dp.description = some none →
      (SharedRepository.update_product now p dp).description = p.description) ∧
    (∀ p0, ProductRepository.get_by_id pstore pid = some p0 →
      dp.description = some none →
      (ProductRepository.update pstore pid dp).1.map (fun x => x.description)
        = some none) := by
  obtain ⟨s, r, n⟩ := d
  obtain ⟨f, e, pw, ro⟩ := du
  obtain ⟨pn, pp, pde, pc⟩ := dp
  refine ⟨?_, ?_, ?_, ?_, ?_⟩
  · intro h
    simp only [OrderUpdateDump.notes] at h
    subst h
    cases s <;> rcases r with _ | (_ | _) <;> simp [BaseRepository.update_order]
  · intro h
    simp only [OrderUpdateDump.rating] at h
    subst h
    cases s <;> rcases n with _ | (_ | _) <;> simp [BaseRepository.update_order]
  · intro h
    simp only [UserUpdateDump.full_name] at h
    subst h
    cases e <;> cases pw <;> cases ro <;> simp [BaseRepository.update_user]
  · intro h
    simp only [ProductUpdateDump.description] at h
    subst h
    cases pn <;> cases pp <;> cases pc <;> simp [SharedRepository.update_product]
  · intro p0 h0 h
    simp only [ProductUpdateDump.description] at h
    subst h
    unfold ProductRepository.update
    rw [h0]
    cases pn <;> cases pp <;> cases pc <;> simp

/-- Witness for the amended C10 at concrete inputs: an order patch with
`notes: None` leaves the notes alone, while the product path clears the
description. -/
theorem update_none_skipping_witness :
    (BaseRepository.update_order c5Order ⟨none, none, some none⟩).notes
      = c5Order.notes ∧
    (ProductRepository.update [c10Product] "pX" c10Dump).1.map
        (fun x => x.description)
      = some none := by
  have h := update_none_skipping c5Order ⟨none, none, some none⟩ c8User
    ⟨none, none, none, none⟩ 0 c10Product c10Dump [c10Product] "pX"
  exact ⟨h.1 rfl, h.2.2.2.2 c10Product (by decide) rfl⟩

/-- Two pages formulas agree with ceiling division. -/
lemma userPages_eq_ceil (t l : Nat) (hl : 0 < l) :
    t / l + (if t % l ≠ 0 then 1 else 0) = (t + l - 1) / l := by
  obtain ⟨q, r, hr, ht⟩ : ∃ q r, r < l ∧ t = l * q + r :=
    ⟨t / l, t % l, Nat.mod_lt _ hl, ((Nat.div_add_mod t l).symm)⟩
  subst ht
  rw [Nat.mul_add_div hl, Nat.mul_add_mod, Nat.mod_eq_of_lt hr,
    Nat.div_eq_of_lt hr]
  by_cases h0 : r = 0
  · subst h0
    have harr : l * q + 0 + l - 1 = l * q + (l - 1) := by omega
    rw [harr, Nat.mul_add_div hl, Nat.div_eq_of_lt (by omega)]
    simp
  · have harr : l * q + r + l - 1 = l * (q + 1) + (r - 1) := by
      have hm : l * (q + 1) = l * q + l := by ring
      omega
    rw [harr, Nat.mul_add_div hl, Nat.div_eq_of_lt (by omega)]
    simp [h0]

/-- C6 amended.  For every positive limit, the order- and user-service
pagination blocks report the freshly queried repository count, with
`total_pages = ceil(total_count / limit)` and `page = offset / limit + 1`;
the product-service block does not (see the counterexample). -/
theorem pagination_formulas (repoCount offset limit : Nat) (h : 0 < limit) :
    paginationSpecOK repoCount offset limit
      (OrderService.get_pagination repoCount offset limit) ∧
    paginationSpecOK repoCount offset limit
      (UserService.get_pagination repoCount offset limit) := by
  have hne : limit ≠ 0 := Nat.pos_iff_ne_zero.mp h
  constructor
  · exact ⟨rfl, by simp [OrderService.get_pagination, paginationSpecOK,
      specCeilDiv, hne], by simp [OrderService.get_pagination, hne]⟩
  · refine ⟨rfl, ?_, by simp [UserService.get_pagination, hne]⟩
    simp only [UserService.get_pagination, hne, if_true, ne_eq,
      ite_not, specCeilDiv]
    rw [← userPages_eq_ceil repoCount limit h]
    simp [ite_not]

/-- Counterexample to C6: with a repository holding 5 products and a
positive limit 2, the product service's pagination block reports
`total_count = 0` and `total_pages = 0` instead of the freshly queried
count 5 and `ceil(5/2) = 3`. -/
theorem product_pagination_cex :
    ¬ paginationSpecOK 5 0 2 (ProductService.get_pagination 0 2) ∧
    (ProductService.get_pagination 0 2).total_count = 0 ∧
    (ProductService.get_pagination 0 2).total_pages = 0 ∧
    specCeilDiv 5 2 = 3 := by
  decide

/-- Witness for the amended C6: repository count 5, offset 4, limit 2
give total_pages 3 and page 3 for both the order and user services. -/
theorem pagination_formulas_witness :
    paginationSpecOK 5 4 2 (OrderService.get_pagination 5 4 2) ∧
    paginationSpecOK 5 4 2 (UserService.get_pagination 5 4 2) :=
  pagination_formulas 5 4 2 (by decide)

/-- The GROUP BY bucket of product `pid`: the rows of the item/order
join whose item references `pid`. -/
def groupRows (orders : List Order) (items : List OrderItem) (pid : String) :
    List (OrderItem × Order) :=
  (joinedRows orders items).filter (fun r => r.1.product_id = pid)

/-- The ratings pool SQL `AVG(Order.rating)` averages for `pid`'s
bucket: the non-null ratings of the bucket's orders. -/
def groupRatings (orders : List Order) (items : List OrderItem)
    (pid : String) : List Int :=
  (groupRows orders items pid).filterMap (fun r => r.2.rating)

/-- The record `get_all_public` emits for product `pid`, in the bucket
vocabulary: nothing when the ratings pool is empty (NULL average,
dropped by the Python post-filter), otherwise the grouped sums and the
pool average. -/
def publicGroupRecord (orders : List Order) (items : List OrderItem)
    (pid : String) : Option PublicProductData :=
  match groupRatings orders items pid with
  | [] => none
  | _ :: _ =>
    some { product_id := pid
           quantity := ((groupRows orders items pid).map
             (fun r => r.1.quantity)).sum
           rating := ((groupRatings orders items pid).map
               (fun (n : Int) => (n : Rat))).sum
             / (((groupRatings orders items pid).length : Nat) : Rat) }

/-- `get_all_public` rewritten through the bucket vocabulary (the
vacuous WHERE clause removed by `List.filter_true`). -/
lemma get_all_public_eq (orders : List Order) (items : List OrderItem) :
    OrderRepository.get_all_public orders items
      = (groupKeys (joinedRows orders items)).filterMap
          (publicGroupRecord orders items) := by
  unfold OrderRepository.get_all_public publicGroupRecord groupRatings groupRows
  rw [List.filter_true]

/-- A non-empty ratings pool puts `pid` among the joined product ids. -/
lemma mem_join_of_groupRatings_ne_nil (orders : List Order)
    (items : List OrderItem) (pid : String)
    (h : groupRatings orders items pid ≠ []) :
    pid ∈ (joinedRows orders items).map (fun r => r.1.product_id) := by
  unfold groupRatings at h
  cases hg : groupRows orders items pid with
  | nil => rw [hg] at h; simp at h
  | cons row rest =>
    have hrow : row ∈ groupRows orders items pid := by
      rw [hg]; exact List.Mem.head _
    unfold groupRows at hrow
    rw [List.mem_filter] at hrow
    rw [List.mem_map]
    exact ⟨row, hrow.1, of_decide_eq_true hrow.2⟩

/-- A filterMap whose partial function tags each output with its input
key keeps a duplicate-free key list duplicate-free. -/
lemma filterMap_ids_nodup (fn : String → Option PublicProductData)
    (hfn : ∀ pid r, fn pid = some r → r.product_id = pid) :
    ∀ keys : List String, keys.Nodup →
      ((keys.filterMap fn).map (fun r => r.product_id)).Nodup ∧
      ∀ q ∈ (keys.filterMap fn).map (fun r => r.product_id), q ∈ keys := by
  intro keys
  induction keys with
  | nil => intro _; simp
  | cons k ks ih =>
    intro hnd
    rw [List.nodup_cons] at hnd
    obtain ⟨hk, hks⟩ := hnd
    obtain ⟨ih1, ih2⟩ := ih hks
    cases hfk : fn k with
    | none =>
      simp only [List.filterMap_cons, hfk]
      exact ⟨ih1, fun q hq => List.mem_cons_of_mem _ (ih2 q hq)⟩
    | some r =>
      have hrk := hfn k r hfk
      simp only [List.filterMap_cons, hfk, List.map_cons]
      constructor
      · rw [List.nodup_cons]
        exact ⟨fun hmem => hk (hrk ▸ ih2 _ hmem), ih1⟩
      · intro q hq
        rcases List.mem_cons.mp hq with hq1 | hq2
        · exact List.mem_cons.mpr (Or.inl (by rw [hq1, hrk]))
        · exact List.mem_cons.mpr (Or.inr (ih2 q hq2))

/-- C7 amended.  `get_all_public` returns one record per product id of
the item/order join whose ratings pool is non-empty, and nothing else:
(a) every returned record belongs to a joined product id, has a
non-empty ratings pool, carries the sum of the quantities of ALL items
of that product — items of unrated orders included — and the average of
the pool's ratings; (b) every joined product id with a non-empty
ratings pool yields a returned record; (c) no product id is returned
twice. -/
theorem get_all_public_grouped
    (orders : List Order) (items : List OrderItem) :
    (∀ rec ∈ OrderRepository.get_all_public orders items,
      rec.product_id ∈ (joinedRows orders items).map (fun r => r.1.product_id) ∧
      groupRatings orders items rec.product_id ≠ [] ∧
      rec.quantity = ((groupRows orders items rec.product_id).map
        (fun r => r.1.quantity)).sum ∧
      rec.rating = ((groupRatings orders items rec.product_id).map
          (fun (n : Int) => (n : Rat))).sum
        / (((groupRatings orders items rec.product_id).length : Nat) : Rat)) ∧
    (∀ pid, pid ∈ (joinedRows orders items).map (fun r => r.1.product_id) →
      groupRatings orders items pid ≠ [] →
      ∃ rec, rec ∈ OrderRepository.get_all_public orders items ∧
        rec.product_id = pid) ∧
    ((OrderRepository.get_all_public orders items).map
      (fun r => r.product_id)).Nodup := by
  have heq := get_all_public_eq orders items
  have hfn : ∀ pid r, publicGroupRecord orders items pid = some r →
      r.product_id = pid := by
    intro pid r h
    unfold publicGroupRecord at h
    cases hr : groupRatings orders items pid with
    | nil => rw [hr] at h; simp at h
    | cons a as =>
      rw [hr] at h
      simp only [Option.some.injEq] at h
      subst h
      rfl
  refine ⟨?_, ?_, ?_⟩
  · intro rec hrec
    rw [heq, List.mem_filterMap] at hrec
    obtain ⟨pid, hpid, hrfn⟩ := hrec
    unfold publicGroupRecord at hrfn
    cases hr : groupRatings orders items pid with
    | nil => rw [hr] at hrfn; simp at hrfn
    | cons a as =>
      rw [hr] at hrfn
      simp only [Option.some.injEq] at hrfn
      subst hrfn
      refine ⟨mem_join_of_groupRatings_ne_nil orders items pid (by rw [hr]; simp),
        by rw [hr]; simp, by rfl, by rw [hr]⟩
  · intro pid hpid hrat
    cases hr : groupRatings orders items pid with
    | nil => exact absurd hr hrat
    | cons a as =>
      refine ⟨{ product_id := pid
                quantity := ((groupRows orders items pid).map
                  (fun r => r.1.quantity)).sum
                rating := ((groupRatings orders items pid).map
                    (fun (n : Int) => (n : Rat))).sum
                  / (((groupRatings orders items pid).length : Nat) : Rat) },
              ?_, rfl⟩
      rw [heq, List.mem_filterMap]
      refine ⟨pid, ?_, ?_⟩
      · unfold groupKeys
        exact List.mem_dedup.mpr hpid
      · unfold publicGroupRecord
        rw [hr]
  · rw [heq]
    refine (filterMap_ids_nodup (publicGroupRecord orders items) hfn
      (groupKeys (joinedRows orders items)) ?_).1
    unfold groupKeys
    exact List.nodup_dedup _

/-- Rated order for the C7 counterexample. -/
def c7Rated : Order :=
  { id := "A", created_at := 1, updated_at := 1, status := .COMPLETED,
    total := 2, locator := "H123", notes := none, products := [],
    rating := some 4 }

/-- Unrated order for the C7 counterexample. -/
def c7Unrated : Order :=
  { id := "B", created_at := 1, updated_at := 1, status := .PENDING,
    total := 3, locator := "J123", notes := none, products := [],
    rating := none }

/-- Orders table for the C7 counterexample. -/
def c7Orders : List Order := [c7Rated, c7Unrated]

/-- Item table for the C7 counterexample: product `P` bought with
quantity 2 in the rated order and quantity 3 in the unrated one. -/
def c7Items : List OrderItem :=
  [{ id := "i1", created_at := 0, updated_at := 0, quantity := 2, price := 1,
     order_id := "A", product_id := "P" },
   { id := "i2", created_at := 0, updated_at := 0, quantity := 3, price := 1,
     order_id := "B", product_id := "P" }]

/-- Counterexample to C7: the claim's per-item feed would report the
rated order's item quantity 2 for product `P`, but `get_all_public`
returns a single grouped record whose quantity 5 also counts the
unrated order's item, so the two disagree. -/
theorem get_all_public_not_per_item_cex :
    (OrderRepository.get_all_public c7Orders c7Items).map
        (fun r => (r.product_id, r.quantity)) = [("P", 5)] ∧
    (publicFeedSpec c7Orders c7Items).map
        (fun r => (r.product_id, r.quantity)) = [("P", 2)] ∧
    OrderRepository.get_all_public c7Orders c7Items
      ≠ publicFeedSpec c7Orders c7Items := by
  have hcode : (OrderRepository.get_all_public c7Orders c7Items).map
      (fun r => (r.product_id, r.quantity)) = [("P", 5)] := by decide
  have hspec : (publicFeedSpec c7Orders c7Items).map
      (fun r => (r.product_id, r.quantity)) = [("P", 2)] := by decide
  refine ⟨hcode, hspec, fun h => ?_⟩
  rw [h, hspec] at hcode
  exact absurd hcode (by decide)

/-- The record the C7 witness expects `get_all_public` to return for
product `P`: total quantity 5 (both orders), average rating 4 (the one
non-null rating). -/
def c7Rec : PublicProductData :=
  { product_id := "P"
    quantity := 5
    rating := ((([(4 : Int)]).map (fun (n : Int) => (n : Rat))).sum)
      / ((([(4 : Int)]).length : Nat) : Rat) }

/-- Witness for the amended C7 at the counterexample's tables:
soundness at the concrete returned record, existence of a record for
the qualifying product `P`, and duplicate-freedom of the output. -/
theorem get_all_public_grouped_witness :
    c7Rec ∈ OrderRepository.get_all_public c7Orders c7Items ∧
    c7Rec.quantity
      = ((groupRows c7Orders c7Items c7Rec.product_id).map
          (fun r => r.1.quantity)).sum ∧
    "P" ∈ (OrderRepository.get_all_public c7Orders c7Items).map
      (fun r => r.product_id) ∧
    ((OrderRepository.get_all_public c7Orders c7Items).map
      (fun r => r.product_id)).Nodup := by
  have h := get_all_public_grouped c7Orders c7Items
  have hmem : c7Rec ∈ OrderRepository.get_all_public c7Orders c7Items :=
    List.Mem.head _
  obtain ⟨rec, hrec, hrid⟩ := h.2.1 "P" (by decide) (by decide)
  refine ⟨hmem, (h.1 c7Rec hmem).2.2.1, ?_, h.2.2⟩
  rw [← hrid]
  exact List.mem_map_of_mem _ hrec

end FoodTruck
